import Mathlib

/- Shallow embedding of src/lib/client/opcua_client.js, the session
   lifecycle layer of the node-opcua client.  JavaScript Buffer values are
   modelled as lists of byte values, absent (undefined or null) values as
   Option.none, and every truthiness test of the source is made explicit.
   Request and response round trips over the secure channel, as well as the
   external crypto and publish collaborators, are passed in as explicit
   arguments holding their outcomes. -/

/-- Byte buffer carried in nonces, certificates and passwords. -/
abbrev Nonce := List Nat

/-- JavaScript value of a boolean option: the caller may omit it
    (undefined), pass null, or pass an actual boolean. -/
inductive JsBoolValue
  | undef
  | null
  | bool (b : Bool)
deriving DecidableEq, Repr

/-- JavaScript truthiness of a JsBoolValue: undefined and null are falsy. -/
def jsTruthyBool : JsBoolValue → Bool
  | .bool b => b
  | _ => false

/-- Service result codes used by opcua_client.js; the source compares
    StatusCodes singletons with strict equality. -/
inductive StatusCode
  | Good
  | BadTooManySessions
  | other (code : Nat)
deriving DecidableEq, Repr

inductive MessageSecurityMode
  | none
  | sign
  | signAndEncrypt
deriving DecidableEq, Repr

inductive SecurityPolicyId
  | none
  | basic128Rsa15
  | basic256
  | invalid
  | other (uri : String)
deriving DecidableEq, Repr

inductive UserIdentityTokenType
  | anonymous
  | userName
  | certificate
deriving DecidableEq, Repr

structure UserTokenPolicy where
  tokenType : UserIdentityTokenType
  policyId : String
  securityPolicyUri : Option String
deriving DecidableEq, Repr

structure EndpointDescription where
  endpointUrl : String
  securityMode : MessageSecurityMode
  securityPolicyUri : SecurityPolicyId
  userIdentityTokens : List UserTokenPolicy
deriving DecidableEq, Repr

/-- Errors surfaced through callbacks by opcua_client.js.  Errors raised as
    Error objects are mapped to named constructors following the spec
    taxonomy; transport level failures carry a message. -/
inductive OpcError
  | tooManySessions
  | sessionCreationRejected (code : StatusCode)
  | invalidServerNonce
  | invalidIdentityInfo
  | noMatchingTokenPolicy
  | unsupportedSecurityPolicy
  | activationRejected (code : StatusCode)
  | noChannel
  | endpointMustExist
  | endpointMismatch
  | assertViolation
  | transport (msg : String)
  | republishFailed (msg : String)
deriving DecidableEq, Repr

/-- Helper: whether an Except value is a success. -/
def exceptIsOk {e a : Type} : Except e a → Bool
  | .ok _ => true
  | .error _ => false

/-- Source, lines 49 to 51: function validateServerNonce(serverNonce)
    returns (serverNonce and serverNonce.length less than 32) ? false : true.
    A JavaScript Buffer object is truthy even when it is empty, so the
    truthiness test only rules out absent (undefined or null) nonces. -/
def validateServerNonce (serverNonce : Option Nonce) : Bool :=
  match serverNonce with
  | Option.none => true
  | some n => if n.length < 32 then false else true

/-- Byte length of an optional nonce, zero when absent. -/
def nonceByteLength : Option Nonce → Nat
  | Option.none => 0
  | some l => l.length

/-- Modelled from the spec: findEndpoint lives in lib/client/client_base.js
    which is not among the sources; per spec section 4.1 the endpoint must
    be found among those published for the active channel URL with exactly
    the requested mode and policy. -/
def findEndpoint (endpoints : List EndpointDescription) (url : String)
    (mode : MessageSecurityMode) (policy : SecurityPolicyId) :
    Option EndpointDescription :=
  endpoints.find? (fun e =>
    decide (e.endpointUrl = url) && decide (e.securityMode = mode) &&
      decide (e.securityPolicyUri = policy))

/-- Modelled from the spec: findEndpointForSecurity lives in
    lib/client/client_base.js; per spec section 4.1 the relaxed fallback
    takes the first endpoint matching mode and policy regardless of URL. -/
def findEndpointForSecurity (endpoints : List EndpointDescription)
    (mode : MessageSecurityMode) (policy : SecurityPolicyId) :
    Option EndpointDescription :=
  endpoints.find? (fun e =>
    decide (e.securityMode = mode) && decide (e.securityPolicyUri = policy))

/-- Source, line 76: this.endpoint_must_exist is set to true when
    options.endpoint_must_exist is strictly equal to null, and to the raw
    option value otherwise.  Strict equality with null is false for
    undefined, so an unspecified option is stored as undefined. -/
def initEndpointMustExist (opt : JsBoolValue) : JsBoolValue :=
  if opt = JsBoolValue.null then JsBoolValue.bool true else opt

/-- Source, lines 115 to 146: OPCUAClient.prototype.__resolveEndPoint.
    Returns the endpoint stored on the client, or none when resolution
    fails.  The stored endpoint_must_exist value is tested for truthiness
    before taking the relaxed fallback. -/
def __resolveEndPoint (endpoints : List EndpointDescription)
    (channelUrl : String) (mode : MessageSecurityMode)
    (policy : SecurityPolicyId) (endpointMustExist : JsBoolValue) :
    Option EndpointDescription :=
  match findEndpoint endpoints channelUrl mode policy with
  | some e => some e
  | Option.none =>
    if jsTruthyBool endpointMustExist then Option.none
    else findEndpointForSecurity endpoints mode policy

inductive ApplicationType
  | client
  | server
deriving DecidableEq, Repr

structure ApplicationDescription where
  applicationUri : String
  productUri : String
  applicationName : String
  applicationType : ApplicationType
deriving DecidableEq, Repr

/-- Source, lines 183 to 192: the CreateSessionRequest built by
    _createSession, with exactly the properties assigned there.  In
    particular the request has no serverNonce property. -/
structure CreateSessionRequest where
  clientDescription : ApplicationDescription
  serverUri : String
  endpointUrl : String
  sessionName : String
  clientNonce : Nonce
  clientCertificate : Option (List Nat)
  requestedSessionTimeout : Nat
  maxResponseMessageSize : Nat
deriving DecidableEq, Repr

/-- Source, line 214 reads request.serverNonce.  CreateSessionRequest has no
    serverNonce property, so in JavaScript this property access evaluates to
    undefined; the shallow embedding renders the access as none. -/
def CreateSessionRequest.serverNonce (_r : CreateSessionRequest) : Option Nonce :=
  Option.none

structure ResponseHeader where
  serviceResult : StatusCode
deriving DecidableEq, Repr

structure CreateSessionResponse where
  responseHeader : ResponseHeader
  sessionId : Nat
  authenticationToken : Nat
  revisedSessionTimeout : Nat
  serverNonce : Option Nonce
  serverCertificate : Option (List Nat)
  serverSignature : Option (List Nat)
  serverEndpoints : List EndpointDescription
deriving DecidableEq, Repr

/-- The fields of a ClientSession populated by _createSession. -/
structure ClientSessionData where
  name : String
  sessionId : Nat
  authenticationToken : Nat
  timeout : Nat
  serverNonce : Option Nonce
  serverCertificate : Option (List Nat)
  serverSignature : Option (List Nat)
  serverEndpoints : List EndpointDescription
deriving DecidableEq, Repr

/-- Source, lines 198 to 241: the response handler of _createSession.  The
    outcome of performMessageTransaction is passed in as an Except value.
    On a BadTooManySessions result the handler fails with tooManySessions;
    on a Good result it validates request.serverNonce (see
    CreateSessionRequest.serverNonce above) and then populates a
    ClientSession from the response; on any other result it fails wrapping
    the service result. -/
def _createSession_onResponse (request : CreateSessionRequest)
    (transact : Except OpcError CreateSessionResponse) :
    Except OpcError ClientSessionData :=
  match transact with
  | .error e => .error e
  | .ok response =>
    if response.responseHeader.serviceResult = StatusCode.BadTooManySessions then
      .error OpcError.tooManySessions
    else if response.responseHeader.serviceResult = StatusCode.Good then
      if validateServerNonce request.serverNonce = false then
        .error OpcError.invalidServerNonce
      else
        .ok { name := request.sessionName
              sessionId := response.sessionId
              authenticationToken := response.authenticationToken
              timeout := response.revisedSessionTimeout
              serverNonce := response.serverNonce
              serverCertificate := response.serverCertificate
              serverSignature := response.serverSignature
              serverEndpoints := response.serverEndpoints }
    else
      .error (OpcError.sessionCreationRejected response.responseHeader.serviceResult)

/-- Identity info passed by the application: each field may be absent
    (undefined) or a string; JavaScript treats the empty string as falsy. -/
structure UserIdentityInfo where
  userName : Option String
  password : Option String
deriving DecidableEq, Repr

/-- JavaScript truthiness of an optional string: undefined and the empty
    string are falsy. -/
def jsTruthyStr : Option String → Bool
  | Option.none => false
  | some s => !(s == "")

/-- Source, lines 251 to 253: isAnonymous tests truthiness of the whole
    object and of its userName and password fields. -/
def isAnonymous (userIdentityInfo : Option UserIdentityInfo) : Bool :=
  match userIdentityInfo with
  | Option.none => true
  | some info => !(jsTruthyStr info.userName) && !(jsTruthyStr info.password)

/-- Source, lines 255 to 258: isUserNamePassword tests that both fields are
    strictly different from undefined (not truthiness). -/
def isUserNamePassword (info : UserIdentityInfo) : Bool :=
  info.userName.isSome && info.password.isSome

/-- Source, lines 260 to 268: first advertised token policy of the given
    token type, or null when the filter result is empty. -/
def findUserTokenPolicy (endpointDesc : EndpointDescription)
    (userTokenType : UserIdentityTokenType) : Option UserTokenPolicy :=
  match endpointDesc.userIdentityTokens.filter
      (fun u => decide (u.tokenType = userTokenType)) with
  | [] => Option.none
  | r :: _ => some r

inductive IdentityToken
  | anonymous (policyId : String)
  | userName (userName : String) (password : List Nat)
      (encryptionAlgorithm : String) (policyId : String)
deriving DecidableEq, Repr

/-- Encrypted password blob carried by a UserNameIdentityToken; empty for
    the anonymous token. -/
def IdentityToken.passwordBlob : IdentityToken → List Nat
  | .anonymous _ => []
  | .userName _ p _ _ => p

/-- The parts of a ClientSession read during identity token creation. -/
structure SessionTokenCtx where
  endpoint : EndpointDescription
  serverCertificate : List Nat
  serverNonce : Nonce
  channelSecurityPolicy : SecurityPolicyId
deriving DecidableEq, Repr

/-- Source, lines 270 to 280: createAnonymousIdentityToken; the thrown
    exception becomes the noMatchingTokenPolicy error. -/
def createAnonymousIdentityToken (session : SessionTokenCtx) :
    Except OpcError IdentityToken :=
  match findUserTokenPolicy session.endpoint UserIdentityTokenType.anonymous with
  | Option.none => .error OpcError.noMatchingTokenPolicy
  | some userTokenPolicy => .ok (IdentityToken.anonymous userTokenPolicy.policyId)

/-- Little endian four byte encoding written by Buffer.writeUInt32LE. -/
def uint32LE (n : Nat) : List Nat :=
  [n % 256, n / 256 % 256, n / 65536 % 256, n / 16777216 % 256]

/-- UTF-8 encoding of one character, as performed by the Buffer constructor
    with the utf-8 encoding. -/
def utf8EncodeChar (c : Char) : List Nat :=
  let n := c.toNat
  if n < 128 then [n]
  else if n < 2048 then [192 + n / 64, 128 + n % 64]
  else if n < 65536 then [224 + n / 4096, 128 + n / 64 % 64, 128 + n % 64]
  else [240 + n / 262144, 128 + n / 4096 % 64, 128 + n / 64 % 64, 128 + n % 64]

/-- UTF-8 bytes of a string. -/
def utf8Bytes (s : String) : List Nat :=
  (s.data.map utf8EncodeChar).flatten

/-- Modelled from the spec: the cryptographic algorithm set resolved for a
    security policy; lib/misc/security_policy.js is not among the sources
    (spec section 6, consumed collaborator interfaces). -/
structure CryptoFactory where
  asymmetricEncryptionAlgorithm : String
  asymmetricEncrypt : List Nat → List Nat → List Nat

/-- Modelled from the spec: the security policy registry and certificate
    utilities of lib/misc/security_policy.js and lib/misc/crypto_utils.js,
    which are not among the sources (spec section 6). -/
structure SecurityPolicyRegistry where
  fromURI : Option String → SecurityPolicyId
  getCryptoFactory : SecurityPolicyId → Option CryptoFactory
  extractPublicKeyFromCertificate : List Nat → List Nat

/-- Source, lines 282 to 338: createUserNameIdentityToken.  Exceptions
    thrown in the source become error values.  The effective security
    policy is the token policy URI resolved through the registry, falling
    back to the channel security policy when that resolution is invalid.
    The plaintext block passed to the asymmetric encryption is the four
    byte little endian length of password bytes plus nonce, then the
    password bytes, then the server nonce. -/
def createUserNameIdentityToken (reg : SecurityPolicyRegistry)
    (session : SessionTokenCtx) (userName : String) (password : String) :
    Except OpcError IdentityToken :=
  match findUserTokenPolicy session.endpoint UserIdentityTokenType.userName with
  | Option.none => .error OpcError.noMatchingTokenPolicy
  | some userTokenPolicy =>
    let securityPolicy0 := reg.fromURI userTokenPolicy.securityPolicyUri
    let securityPolicy :=
      if securityPolicy0 = SecurityPolicyId.invalid then
        session.channelSecurityPolicy
      else securityPolicy0
    let publicKey := reg.extractPublicKeyFromCertificate session.serverCertificate
    match reg.getCryptoFactory securityPolicy with
    | Option.none => .error OpcError.unsupportedSecurityPolicy
    | some cryptoFactory =>
      let passwordBytes := utf8Bytes password
      let lenBuf := uint32LE (passwordBytes.length + session.serverNonce.length)
      let block := lenBuf ++ passwordBytes ++ session.serverNonce
      .ok (IdentityToken.userName userName
        (cryptoFactory.asymmetricEncrypt block publicKey)
        cryptoFactory.asymmetricEncryptionAlgorithm
        userTokenPolicy.policyId)

/-- Source, lines 340 to 371: OPCUAClient.prototype.createUserIdentityToken.
    The classification is by isAnonymous first (truthiness), then
    isUserNamePassword (definedness), and fails otherwise. -/
def createUserIdentityToken (reg : SecurityPolicyRegistry)
    (userIdentityInfo : Option UserIdentityInfo) (session : SessionTokenCtx) :
    Except OpcError IdentityToken :=
  if isAnonymous userIdentityInfo then
    createAnonymousIdentityToken session
  else
    match userIdentityInfo with
    | Option.none => .error OpcError.invalidIdentityInfo
    | some info =>
      if isUserNamePassword info then
        createUserNameIdentityToken reg session (info.userName.getD (""))
          (info.password.getD (""))
      else .error OpcError.invalidIdentityInfo

abbrev ClientId := Nat
abbrev SessionId := Nat

/-- Client and session state touched by the session lifecycle: the owning
    client reference of each session (session._client in the source), the
    _sessions collection of each client, the serverNonce of each session,
    and the endpointUrl of each client. -/
structure World where
  owner : SessionId → ClientId
  sessions : ClientId → List SessionId
  sessionNonce : SessionId → Option Nonce
  clientUrl : ClientId → String

/-- Assignment session._client = c. -/
def setOwner (s : SessionId) (c : ClientId) (w : World) : World :=
  { w with owner := fun s2 => if s2 = s then c else w.owner s2 }

/-- Assignment session.serverNonce = n. -/
def setSessionNonce (s : SessionId) (n : Option Nonce) (w : World) : World :=
  { w with sessionNonce := fun s2 => if s2 = s then n else w.sessionNonce s2 }

/-- Modelled from the spec: _removeSession lives in
    lib/client/client_base.js; per spec section 3 the client session
    collection is an ownership set whose membership changes move sessions
    between clients. -/
def _removeSession (c : ClientId) (s : SessionId) (w : World) : World :=
  { w with sessions := fun c2 =>
      if c2 = c then (w.sessions c2).erase s else w.sessions c2 }

/-- Modelled from the spec: _addSession lives in lib/client/client_base.js
    (see _removeSession). -/
def _addSession (c : ClientId) (s : SessionId) (w : World) : World :=
  { w with sessions := fun c2 =>
      if c2 = c then w.sessions c2 ++ [s] else w.sessions c2 }

/-- Outcome of the ActivateSession exchange. -/
structure ActivateSessionResult where
  serviceResult : StatusCode
  serverNonce : Option Nonce
deriving DecidableEq, Repr

/-- Source, lines 375 to 473: OPCUAClient.prototype._activateSession, for a
    client holding a live secure channel.  The outcome of
    createUserIdentityToken and the outcome of the ActivateSession
    transaction are passed in explicitly.  The source first reassigns
    session._client to the activating client, rolls it back on token
    derivation failure, on transaction failure and on a non Good result,
    and on a Good result stores the refreshed nonce into the session and
    validates it; when only that refreshed nonce is invalid the error is
    surfaced without rolling the owner back. -/
def _activateSession (self : ClientId) (session : SessionId) (w : World)
    (tokenResult : Except OpcError IdentityToken)
    (transact : Except OpcError ActivateSessionResult) :
    World × Except OpcError Unit :=
  let oldClient := w.owner session
  let w1 := setOwner session self w
  match tokenResult with
  | .error e => (setOwner session oldClient w1, .error e)
  | .ok _ =>
    match transact with
    | .error e => (setOwner session oldClient w1, .error e)
    | .ok response =>
      if response.serviceResult = StatusCode.Good then
        let w2 := setSessionNonce session response.serverNonce w1
        if validateServerNonce response.serverNonce = false then
          (w2, .error OpcError.invalidServerNonce)
        else (w2, .ok ())
      else
        (setOwner session oldClient w1,
          .error (OpcError.activationRejected response.serviceResult))

/-- Source, lines 482 to 513: OPCUAClient.prototype.reactivateSession.  The
    outcome of __resolveEndPoint is passed in as resolveOk; the failed
    assertion comparing the endpoint URL of the current owning client with
    that of the target client is modelled as the endpointMismatch failure.
    On activation success the session is moved between the two session
    collections only when the old owning client differs from the target. -/
def reactivateSession (self : ClientId) (session : SessionId) (w : World)
    (resolveOk : Bool)
    (tokenResult : Except OpcError IdentityToken)
    (transact : Except OpcError ActivateSessionResult) :
    World × Except OpcError Unit :=
  if resolveOk = false then (w, .error OpcError.endpointMustExist)
  else if w.clientUrl (w.owner session) = w.clientUrl self then
    let oldClient := w.owner session
    let r := _activateSession self session w tokenResult transact
    match r.2 with
    | .ok _ =>
      if oldClient = self then (r.1, .ok ())
      else (_addSession self session (_removeSession oldClient session r.1), .ok ())
    | .error e => (r.1, .error e)
  else (w, .error OpcError.endpointMismatch)

/-- Source, lines 581 to 608: OPCUAClient.prototype._closeSession.  The
    CloseSession transaction outcome is passed in; with no secure channel
    the callback receives the noChannel error before any exchange. -/
def _closeSession (hasChannel : Bool) (_deleteSubscriptions : Bool)
    (transact : Except OpcError StatusCode) : Except OpcError StatusCode :=
  if hasChannel = false then .error OpcError.noChannel
  else transact

/-- Source, lines 618 to 631: OPCUAClient.prototype.closeSession.  The
    assertion that the session is attached to self is modelled as the
    assertViolation failure; otherwise the continuation removes the session
    from the collection of self whatever the outcome of _closeSession. -/
def closeSession (self : ClientId) (session : SessionId) (w : World)
    (hasChannel : Bool) (transact : Except OpcError StatusCode) :
    World × Except OpcError Unit :=
  if w.owner session = self then
    let res := _closeSession hasChannel true transact
    (_removeSession self session w,
      match res with
      | .ok _ => .ok ()
      | .error e => .error e)
  else (w, .error OpcError.assertViolation)

/-- Source, lines 540 to 564: OPCUAClient.prototype.createSession.  The
    outcome of _createSession is passed in as the identifier of the freshly
    built session, whose owning client reference is set to self by the
    ClientSession constructor; the session is added to the collection of
    self and then activated.  On activation failure nothing removes it. -/
def createSession (self : ClientId) (w : World)
    (createResult : Except OpcError SessionId)
    (tokenResult : Except OpcError IdentityToken)
    (transact : Except OpcError ActivateSessionResult) :
    World × Except OpcError (Option SessionId) :=
  match createResult with
  | .error e => (w, .error e)
  | .ok sid =>
    let w1 := _addSession self sid (setOwner sid self w)
    let r := _activateSession self sid w1 tokenResult transact
    match r.2 with
    | .ok _ => (r.1, .ok (some sid))
    | .error e => (r.1, .error e)

/-- Per session outcome of the reconnection iterator (source, lines 739 to
    758): a failed activation yields its error to the completion callback;
    on success the republish outcome of _ask_for_subscription_republish
    (source, lines 633 to 639) is forwarded instead. -/
def sessionRecoveryOutcome (act : SessionId → Except OpcError Unit)
    (rep : SessionId → Option OpcError) (s : SessionId) : Option OpcError :=
  match act s with
  | .error e => some e
  | .ok _ => rep s

/-- Trace of one reconnection fan out: which sessions had an activation
    attempted, which had republish invoked, and the overall outcome handed
    to the final callback. -/
structure ReconnectTrace where
  attempted : List SessionId
  republished : List SessionId
  overall : Option OpcError
deriving DecidableEq, Repr

/-- Source, lines 642 to 767:
    OPCUAClient.prototype._on_connection_reestablished, restricted to the
    fan out over self._sessions.  The async.map combinator starts its
    iterator on every element of the collection (its element loop does not
    stop when an earlier iterator has already failed) and reports the first
    error to the final callback, or success when no iterator failed. -/
def _on_connection_reestablished (sessions : List SessionId)
    (act : SessionId → Except OpcError Unit)
    (rep : SessionId → Option OpcError) : ReconnectTrace :=
  match sessions with
  | [] => { attempted := [], republished := [], overall := Option.none }
  | s :: rest =>
    let tail := _on_connection_reestablished rest act rep
    { attempted := s :: tail.attempted
      republished :=
        (match act s with
         | .ok _ => [s]
         | .error _ => []) ++ tail.republished
      overall :=
        match sessionRecoveryOutcome act rep s with
        | some e => some e
        | Option.none => tail.overall }

/-- Helper: _activateSession never touches any session collection. -/
theorem activateSession_sessions_eq (self : ClientId) (session : SessionId)
    (w : World) (tokenResult : Except OpcError IdentityToken)
    (transact : Except OpcError ActivateSessionResult) :
    (_activateSession self session w tokenResult transact).1.sessions =
      w.sessions := by
  cases tokenResult with
  | error e => rfl
  | ok t =>
    cases transact with
    | error e => rfl
    | ok r =>
      by_cases h : r.serviceResult = StatusCode.Good
      · by_cases h2 : validateServerNonce r.serverNonce = false <;>
          simp [_activateSession, h, h2, setSessionNonce, setOwner]
      · simp [_activateSession, h, setOwner]

/-- Helper: _activateSession never touches any client URL. -/
theorem activateSession_clientUrl_eq (self : ClientId) (session : SessionId)
    (w : World) (tokenResult : Except OpcError IdentityToken)
    (transact : Except OpcError ActivateSessionResult) :
    (_activateSession self session w tokenResult transact).1.clientUrl =
      w.clientUrl := by
  cases tokenResult with
  | error e => rfl
  | ok t =>
    cases transact with
    | error e => rfl
    | ok r =>
      by_cases h : r.serviceResult = StatusCode.Good
      · by_cases h2 : validateServerNonce r.serverNonce = false <;>
          simp [_activateSession, h, h2, setSessionNonce, setOwner]
      · simp [_activateSession, h, setOwner]

def c1AppDesc : ApplicationDescription :=
  { applicationUri := ("urn:host:NodeOPCUA-Client")
    productUri := ("NodeOPCUA-Client")
    applicationName := ("NodeOPCUA-Client")
    applicationType := ApplicationType.client }

def c1Request : CreateSessionRequest :=
  { clientDescription := c1AppDesc
    serverUri := ("srv")
    endpointUrl := ("opc.tcp://host:4840")
    sessionName := ("Session1")
    clientNonce := List.replicate 32 0
    clientCertificate := Option.none
    requestedSessionTimeout := 20000
    maxResponseMessageSize := 800000 }

def c1Response : CreateSessionResponse :=
  { responseHeader := { serviceResult := StatusCode.Good }
    sessionId := 11
    authenticationToken := 7
    revisedSessionTimeout := 1200
    serverNonce := some [0]
    serverCertificate := Option.none
    serverSignature := Option.none
    serverEndpoints := [] }

/-- C1: on a Good CreateSession response carrying a one byte server nonce
    the handler still returns a populated session, because the guard
    validates request.serverNonce, a property the request object does not
    have (undefined, hence always accepted), instead of the returned
    response.serverNonce; the failure with invalidServerNonce claimed for a
    short returned nonce therefore never happens. -/
theorem C1_create_session_nonce_bug :
    CreateSessionRequest.serverNonce c1Request = Option.none ∧
    validateServerNonce (CreateSessionRequest.serverNonce c1Request) = true ∧
    validateServerNonce c1Response.serverNonce = false ∧
    _createSession_onResponse c1Request (.ok c1Response) =
      .ok { name := ("Session1")
            sessionId := 11
            authenticationToken := 7
            timeout := 1200
            serverNonce := some [0]
            serverCertificate := Option.none
            serverSignature := Option.none
            serverEndpoints := [] } := by
  refine ⟨rfl, rfl, rfl, ?_⟩
  rfl

def c2Endpoint : EndpointDescription :=
  { endpointUrl := ("opc.tcp://hostname:4840")
    securityMode := MessageSecurityMode.none
    securityPolicyUri := SecurityPolicyId.none
    userIdentityTokens := [] }

/-- C2: leaving options.endpoint_must_exist unspecified stores the
    JavaScript value undefined, because strict equality with null fails for
    undefined; that stored value is falsy, so resolution against a channel
    URL absent from the published endpoints silently takes the relaxed
    fallback instead of failing, while an explicit true does fail exactly
    as the claim describes for the default. -/
theorem C2_endpoint_must_exist_default_bug :
    initEndpointMustExist JsBoolValue.undef = JsBoolValue.undef ∧
    jsTruthyBool (initEndpointMustExist JsBoolValue.undef) = false ∧
    __resolveEndPoint [c2Endpoint] ("opc.tcp://192.168.0.5:4840")
      MessageSecurityMode.none SecurityPolicyId.none
      (initEndpointMustExist JsBoolValue.undef) = some c2Endpoint ∧
    __resolveEndPoint [c2Endpoint] ("opc.tcp://192.168.0.5:4840")
      MessageSecurityMode.none SecurityPolicyId.none
      (JsBoolValue.bool true) = Option.none := by
  refine ⟨rfl, rfl, ?_, ?_⟩ <;> decide

/-- C5 counterexample: a present but empty server nonce is rejected by
    validateServerNonce, because a Buffer object is truthy even when empty
    and its length zero is below 32; the claim states instead that an empty
    nonce is accepted. -/
theorem C5_empty_nonce_rejected :
    validateServerNonce (some ([] : Nonce)) = false := rfl

/-- C5 amended: validateServerNonce returns false exactly when the nonce is
    present with fewer than 32 bytes; an absent nonce is accepted, and a
    present empty nonce is therefore rejected. -/
theorem C5_validate_nonce_iff (N : Option Nonce) :
    (validateServerNonce N = false ↔
      N.isSome = true ∧ nonceByteLength N < 32) ∧
    validateServerNonce Option.none = true := by
  refine ⟨?_, rfl⟩
  cases N with
  | none => simp [validateServerNonce]
  | some l =>
    simp [validateServerNonce, nonceByteLength]

def c3World : World :=
  { owner := fun _ => 0
    sessions := fun _ => [5]
    sessionNonce := fun _ => Option.none
    clientUrl := fun _ => ("opc.tcp://host:4840") }

/-- C3 counterexample: with the ActivateSession exchange succeeding (Good
    result) but returning a one byte nonce, activation fails with
    invalidServerNonce yet the owning client reference of the session is
    left at the activating client 1 instead of being rolled back to the
    prior owner 0. -/
theorem C3_invalid_nonce_no_rollback :
    c3World.owner 5 = 0 ∧
    (_activateSession 1 5 c3World (.ok (IdentityToken.anonymous ("p")))
        (.ok { serviceResult := StatusCode.Good, serverNonce := some [9] })).2 =
      .error OpcError.invalidServerNonce ∧
    (_activateSession 1 5 c3World (.ok (IdentityToken.anonymous ("p")))
        (.ok { serviceResult := StatusCode.Good, serverNonce := some [9] })).1.owner 5 = 1 := by
  refine ⟨rfl, rfl, ?_⟩
  rfl

/-- C3 amended: after _activateSession the owning client reference of the
    session equals the activating client exactly when the exchange
    succeeded with a Good result (even when the refreshed nonce turns out
    invalid), and is rolled back to the prior owner on identity token
    derivation failure, on transaction failure and on a non Good result;
    the call reports success exactly when the exchange succeeded with Good
    and the refreshed nonce is valid, surfacing an error otherwise. -/
theorem C3_owner_rollback (self : ClientId) (session : SessionId) (w : World)
    (tokenResult : Except OpcError IdentityToken)
    (transact : Except OpcError ActivateSessionResult) :
    ((_activateSession self session w tokenResult transact).1.owner session =
      match tokenResult, transact with
      | .ok _, .ok r =>
        if r.serviceResult = StatusCode.Good then self else w.owner session
      | _, _ => w.owner session) ∧
    ((_activateSession self session w tokenResult transact).2 = .ok () ↔
      ∃ r, transact = .ok r ∧ exceptIsOk tokenResult = true ∧
        r.serviceResult = StatusCode.Good ∧
        validateServerNonce r.serverNonce = true) := by
  cases tokenResult with
  | error e =>
    refine ⟨?_, ?_⟩
    · simp [_activateSession, setOwner]
    · simp [_activateSession, exceptIsOk]
  | ok t =>
    cases transact with
    | error e =>
      refine ⟨?_, ?_⟩
      · simp [_activateSession, setOwner]
      · simp [_activateSession, exceptIsOk]
    | ok r =>
      by_cases h : r.serviceResult = StatusCode.Good
      · by_cases h2 : validateServerNonce r.serverNonce = false
        · refine ⟨?_, ?_⟩
          · simp [_activateSession, h, h2, setSessionNonce, setOwner]
          · simp [_activateSession, h, h2, exceptIsOk]
        · refine ⟨?_, ?_⟩
          · simp [_activateSession, h, h2, setSessionNonce, setOwner]
          · simp only [Bool.not_eq_false] at h2
            simp [_activateSession, h, h2, exceptIsOk]
      · refine ⟨?_, ?_⟩
        · simp [_activateSession, h, setOwner]
        · simp [_activateSession, h, exceptIsOk]

/-- C4: the reconnection fan out attempts activation for every session in
    the collection (a failure does not abort the remaining sessions),
    invokes republish exactly for the sessions whose activation succeeded,
    and its overall outcome is the first per session error in collection
    order, or success when there is none. -/
theorem C4_reconnection_fanout (sessions : List SessionId)
    (act : SessionId → Except OpcError Unit)
    (rep : SessionId → Option OpcError) :
    (_on_connection_reestablished sessions act rep).attempted = sessions ∧
    (_on_connection_reestablished sessions act rep).republished =
      sessions.filter (fun s => exceptIsOk (act s)) ∧
    (_on_connection_reestablished sessions act rep).overall =
      sessions.findSome? (sessionRecoveryOutcome act rep) := by
  induction sessions with
  | nil => exact ⟨rfl, rfl, rfl⟩
  | cons s rest ih =>
    obtain ⟨ih1, ih2, ih3⟩ := ih
    refine ⟨?_, ?_, ?_⟩
    · simp [_on_connection_reestablished, ih1]
    · rw [List.filter_cons]
      cases h : act s with
      | ok u => simp [_on_connection_reestablished, ih2, h, exceptIsOk]
      | error e => simp [_on_connection_reestablished, ih2, h, exceptIsOk]
    · rw [List.findSome?_cons]
      cases h : sessionRecoveryOutcome act rep s with
      | none => simp [_on_connection_reestablished, ih3, h]
      | some e => simp [_on_connection_reestablished, h]

def c6Registry : SecurityPolicyRegistry :=
  { fromURI := fun _ => SecurityPolicyId.invalid
    getCryptoFactory := fun _ =>
      some { asymmetricEncryptionAlgorithm := ("alg")
             asymmetricEncrypt := fun b _ => b }
    extractPublicKeyFromCertificate := fun c => c }

def c6Endpoint : EndpointDescription :=
  { endpointUrl := ("opc.tcp://host:4840")
    securityMode := MessageSecurityMode.none
    securityPolicyUri := SecurityPolicyId.none
    userIdentityTokens :=
      [ { tokenType := UserIdentityTokenType.anonymous
          policyId := ("anon0")
          securityPolicyUri := Option.none },
        { tokenType := UserIdentityTokenType.userName
          policyId := ("user0")
          securityPolicyUri := Option.none } ] }

def c6Ctx : SessionTokenCtx :=
  { endpoint := c6Endpoint
    serverCertificate := [1]
    serverNonce := List.replicate 32 0
    channelSecurityPolicy := SecurityPolicyId.none }

/-- C6 counterexample: an identity info carrying both userName and password
    as empty strings has both present, yet token derivation classifies it
    as anonymous, because the source tests truthiness and empty strings are
    falsy; the claim requires a UserNamePassword token here. -/
theorem C6_empty_strings_classified_anonymous :
    createUserIdentityToken c6Registry
      (some { userName := some (""), password := some ("") }) c6Ctx =
      .ok (IdentityToken.anonymous ("anon0")) := by
  rfl

/-- C6 amended: derivation takes the anonymous path when the identity info
    is absent or both fields are falsy (absent or the empty string); when
    at least one field is truthy, it takes the UserNamePassword path when
    both fields are defined, and fails with invalidIdentityInfo otherwise. -/
theorem C6_identity_classification (reg : SecurityPolicyRegistry)
    (info : UserIdentityInfo) (ctx : SessionTokenCtx) :
    createUserIdentityToken reg (some info) ctx =
      (if !(jsTruthyStr info.userName) && !(jsTruthyStr info.password) then
        createAnonymousIdentityToken ctx
      else if info.userName.isSome && info.password.isSome then
        createUserNameIdentityToken reg ctx (info.userName.getD (""))
          (info.password.getD (""))
      else .error OpcError.invalidIdentityInfo) ∧
    createUserIdentityToken reg Option.none ctx =
      createAnonymousIdentityToken ctx := by
  exact ⟨rfl, rfl⟩

/-- C7: whenever createUserNameIdentityToken succeeds, the encrypted
    password blob of the resulting token is the asymmetric encryption of
    the plaintext block made of the four byte little endian length of the
    UTF-8 password bytes plus the server nonce, then the password bytes,
    then the server nonce; hence any decryption inverting the registered
    encryption recovers that block exactly. -/
theorem C7_password_block (reg : SecurityPolicyRegistry)
    (ctx : SessionTokenCtx) (u p : String) (tok : IdentityToken)
    (dec : List Nat → List Nat)
    (hdec : ∀ sp cf, reg.getCryptoFactory sp = some cf →
      ∀ b k, dec (cf.asymmetricEncrypt b k) = b)
    (hok : createUserNameIdentityToken reg ctx u p = .ok tok) :
    dec tok.passwordBlob =
      uint32LE ((utf8Bytes p).length + ctx.serverNonce.length) ++
        utf8Bytes p ++ ctx.serverNonce := by
  unfold createUserNameIdentityToken at hok
  cases hpol : findUserTokenPolicy ctx.endpoint UserIdentityTokenType.userName with
  | none => rw [hpol] at hok; exact absurd hok (by simp)
  | some pol =>
    rw [hpol] at hok
    simp only at hok
    set sp := (if reg.fromURI pol.securityPolicyUri = SecurityPolicyId.invalid
      then ctx.channelSecurityPolicy else reg.fromURI pol.securityPolicyUri) with hsp
    cases hcf : reg.getCryptoFactory sp with
    | none => rw [hcf] at hok; exact absurd hok (by simp)
    | some cf =>
      rw [hcf] at hok
      simp only [Except.ok.injEq] at hok
      subst hok
      simp only [IdentityToken.passwordBlob]
      rw [hdec sp cf hcf]

def c7Registry : SecurityPolicyRegistry :=
  { fromURI := fun _ => SecurityPolicyId.none
    getCryptoFactory := fun _ =>
      some { asymmetricEncryptionAlgorithm := ("rsa15")
             asymmetricEncrypt := fun b _ => b }
    extractPublicKeyFromCertificate := fun c => c }

def c7Endpoint : EndpointDescription :=
  { endpointUrl := ("opc.tcp://host:4840")
    securityMode := MessageSecurityMode.none
    securityPolicyUri := SecurityPolicyId.none
    userIdentityTokens :=
      [ { tokenType := UserIdentityTokenType.userName
          policyId := ("user7")
          securityPolicyUri := Option.none } ] }

def c7Ctx : SessionTokenCtx :=
  { endpoint := c7Endpoint
    serverCertificate := [2]
    serverNonce := List.replicate 32 1
    channelSecurityPolicy := SecurityPolicyId.none }

def c7Token : IdentityToken :=
  IdentityToken.userName ("JoeDoe")
    (uint32LE ((utf8Bytes ("secret")).length + 32) ++
      utf8Bytes ("secret") ++ List.replicate 32 1)
    ("rsa15") ("user7")

/-- Witness for C7: a concrete identity registry whose encryption is the
    identity function, a concrete endpoint with a UserName token policy,
    and the concrete password; the decrypted blob is the length prefixed
    block. -/
theorem C7_password_block_witness :
    createUserNameIdentityToken c7Registry c7Ctx ("JoeDoe") ("secret") =
      .ok c7Token ∧
    (fun b => b) c7Token.passwordBlob =
      uint32LE ((utf8Bytes ("secret")).length + c7Ctx.serverNonce.length) ++
        utf8Bytes ("secret") ++ c7Ctx.serverNonce := by
  refine ⟨rfl, ?_⟩
  exact C7_password_block c7Registry c7Ctx ("JoeDoe") ("secret") c7Token
    (fun b => b)
    (by intro sp cf h b k
        injection h with h2
        rw [← h2])
    rfl

/-- C8: with endpoint resolution succeeding, reactivation onto a client
    whose endpoint URL differs from that of the current owning client fails
    with endpointMismatch leaving the whole state unchanged; when the URLs
    agree and activation succeeds with a different owning client, the
    session is removed from exactly the old collection and appended to
    exactly the new one (all other collections untouched); when the URLs
    agree and activation fails, every session collection is unchanged and
    no move occurs. -/
theorem C8_reactivate_move (self : ClientId) (session : SessionId) (w : World)
    (tokenResult : Except OpcError IdentityToken)
    (transact : Except OpcError ActivateSessionResult) :
    (¬ (w.clientUrl (w.owner session) = w.clientUrl self) →
      reactivateSession self session w true tokenResult transact =
        (w, .error OpcError.endpointMismatch)) ∧
    (w.clientUrl (w.owner session) = w.clientUrl self →
      (_activateSession self session w tokenResult transact).2 = .ok () →
      ¬ (w.owner session = self) →
      ∀ c : ClientId,
        (reactivateSession self session w true tokenResult transact).1.sessions c =
          if c = self then w.sessions c ++ [session]
          else if c = w.owner session then (w.sessions c).erase session
          else w.sessions c) ∧
    (w.clientUrl (w.owner session) = w.clientUrl self →
      ∀ e, (_activateSession self session w tokenResult transact).2 = .error e →
        (reactivateSession self session w true tokenResult transact).1.sessions =
          w.sessions) := by
  have hs := activateSession_sessions_eq self session w tokenResult transact
  refine ⟨?_, ?_, ?_⟩
  · intro hne
    simp [reactivateSession, hne]
  · intro hurl hok hne c
    simp only [reactivateSession, Bool.true_eq_false, if_false, if_pos hurl,
      hok, if_neg hne, _addSession, _removeSession, hs]
    by_cases hc : c = self
    · subst hc
      have hco : ¬ (c = w.owner session) := fun hh => hne hh.symm
      simp [hco]
    · simp [hc]
  · intro hurl e herr
    simp [reactivateSession, hurl, herr, hs]

def c8World : World :=
  { owner := fun _ => 0
    sessions := fun c => if c = 0 then [5] else []
    sessionNonce := fun _ => Option.none
    clientUrl := fun c =>
      if c = 0 then ("opc.tcp://a:4840") else ("opc.tcp://b:4840") }

/-- Witness for C8: reactivating session 5, owned by client 0 whose URL
    differs from that of client 1, fails with endpointMismatch and leaves
    the state unchanged. -/
theorem C8_reactivate_move_witness :
    reactivateSession 1 5 c8World true (.ok (IdentityToken.anonymous ("p")))
        (.ok { serviceResult := StatusCode.Good,
               serverNonce := some (List.replicate 32 0) }) =
      (c8World, .error OpcError.endpointMismatch) :=
  (C8_reactivate_move 1 5 c8World (.ok (IdentityToken.anonymous ("p")))
      (.ok { serviceResult := StatusCode.Good,
             serverNonce := some (List.replicate 32 0) })).1 (by decide)

def c9World : World :=
  { owner := fun _ => 9
    sessions := fun _ => []
    sessionNonce := fun _ => Option.none
    clientUrl := fun _ => ("opc.tcp://host:4840") }

/-- C9 counterexample: createSession adds the freshly created session 5 to
    the collection of client 0 and the activation step then fails with a
    transport error, yet the session is still in the collection, against
    the claim that after create-then-activate with failed activation the
    session does not remain there. -/
theorem C9_failed_activation_retains_session :
    (createSession 0 c9World (.ok 5) (.ok (IdentityToken.anonymous ("p")))
        (.error (OpcError.transport ("connection lost")))).2 =
      .error (OpcError.transport ("connection lost")) ∧
    (createSession 0 c9World (.ok 5) (.ok (IdentityToken.anonymous ("p")))
        (.error (OpcError.transport ("connection lost")))).1.sessions 0 = [5] := by
  exact ⟨rfl, rfl⟩

/-- C9 amended: closeSession removes the session from the collection of its
    owning client whatever the outcome of the CloseSession exchange,
    including transport failure and missing channel (the removal happens in
    the continuation unconditionally); createSession always leaves the new
    session in the collection of the client, so a failed activation does
    not remove it and the error is surfaced alongside. -/
theorem C9_close_removes_create_retains (self : ClientId) (session : SessionId)
    (w : World) (hasChannel : Bool)
    (closeTransact : Except OpcError StatusCode)
    (self2 : ClientId) (w2 : World) (sid : SessionId)
    (tokenResult : Except OpcError IdentityToken)
    (transact : Except OpcError ActivateSessionResult) :
    (w.owner session = self →
      ∀ c : ClientId,
        (closeSession self session w hasChannel closeTransact).1.sessions c =
          if c = self then (w.sessions c).erase session else w.sessions c) ∧
    sid ∈ (createSession self2 w2 (.ok sid) tokenResult transact).1.sessions self2 := by
  constructor
  · intro h c
    simp [closeSession, h, _removeSession]
  · have hs := activateSession_sessions_eq self2 sid
      (_addSession self2 sid (setOwner sid self2 w2)) tokenResult transact
    have hmain : (createSession self2 w2 (.ok sid) tokenResult transact).1.sessions =
        (_addSession self2 sid (setOwner sid self2 w2)).sessions := by
      simp only [createSession]
      cases (_activateSession self2 sid
          (_addSession self2 sid (setOwner sid self2 w2)) tokenResult transact).2 with
      | ok u => exact hs
      | error e => exact hs
    rw [hmain]
    simp [_addSession, setOwner]

/-- Witness for C9: client 9 owns session 5; closing it over a failed
    transport still removes it from the collection, and a freshly created
    session 7 of client 0 stays in the collection after a failed
    activation. -/
theorem C9_close_removes_witness :
    (c9World.owner 5 = 9 →
      ∀ c : ClientId,
        (closeSession 9 5 c9World false
            (.error (OpcError.transport ("x")))).1.sessions c =
          if c = 9 then (c9World.sessions c).erase 5 else c9World.sessions c) ∧
    7 ∈ (createSession 0 c9World (.ok 7) (.ok (IdentityToken.anonymous ("p")))
        (.error (OpcError.transport ("x")))).1.sessions 0 :=
  C9_close_removes_create_retains 9 5 c9World false
    (.error (OpcError.transport ("x"))) 0 c9World 7
    (.ok (IdentityToken.anonymous ("p"))) (.error (OpcError.transport ("x")))

/-- C10: reactivating a session already owned by the target client itself,
    with a successful activation, performs no session collection mutation:
    every collection is identical before and after the call. -/
theorem C10_reactivate_same_client_frame (self : ClientId)
    (session : SessionId) (w : World)
    (tokenResult : Except OpcError IdentityToken)
    (transact : Except OpcError ActivateSessionResult)
    (howner : w.owner session = self)
    (hok : (_activateSession self session w tokenResult transact).2 = .ok ()) :
    (reactivateSession self session w true tokenResult transact).1.sessions =
      w.sessions ∧
    (reactivateSession self session w true tokenResult transact).2 = .ok () := by
  have hs := activateSession_sessions_eq self session w tokenResult transact
  constructor <;> simp [reactivateSession, howner, hok, hs]

def c10World : World :=
  { owner := fun _ => 1
    sessions := fun _ => [5]
    sessionNonce := fun _ => Option.none
    clientUrl := fun _ => ("opc.tcp://host:4840") }

/-- Witness for C10: client 1 owns session 5 and reactivates it onto
    itself with a successful exchange; the collections are unchanged. -/
theorem C10_reactivate_same_client_witness :
    c10World.owner 5 = 1 ∧
    (_activateSession 1 5 c10World (.ok (IdentityToken.anonymous ("p")))
        (.ok { serviceResult := StatusCode.Good,
               serverNonce := some (List.replicate 32 0) })).2 = .ok () ∧
    ((reactivateSession 1 5 c10World true (.ok (IdentityToken.anonymous ("p")))
        (.ok { serviceResult := StatusCode.Good,
               serverNonce := some (List.replicate 32 0) })).1.sessions =
        c10World.sessions ∧
      (reactivateSession 1 5 c10World true (.ok (IdentityToken.anonymous ("p")))
        (.ok { serviceResult := StatusCode.Good,
               serverNonce := some (List.replicate 32 0) })).2 = .ok ()) :=
  ⟨rfl, by rfl,
    C10_reactivate_same_client_frame 1 5 c10World
      (.ok (IdentityToken.anonymous ("p")))
      (.ok { serviceResult := StatusCode.Good,
             serverNonce := some (List.replicate 32 0) }) rfl (by rfl)⟩
